import Mathlib

/-!
Verification of the AOAgent core: the function-metadata registry and the
task execution graph (`src/aoagent/core/task_components.py`), and the
agent constructor (`src/aoagent/domain/agent.py`).

The Python code is shallowly embedded: Python dicts become association
lists with Python's insert semantics (replace the value in place when the
key is present, append otherwise), exceptions become `Except` results, and
the module-level mutable registry becomes explicit state passing.
-/

/-- A Python runtime error, as surfaced by the embedded code. -/
inductive PyError where
  | KeyError (key : String)
  | AttributeError (attr : String)
  deriving DecidableEq, Repr

/-- A Python type-annotation value, as seen by `type_to_string`:
`name_attr` is `some n` when the value has a `__name__` attribute equal to
`n`, and `str_repr` is the value's `str(...)` conversion. -/
structure PyAnnot where
  name_attr : Option String
  str_repr : String
  deriving DecidableEq, Repr

/-- The `typing.Any` sentinel used as the default for unannotated
parameters (`type_hints.get(name, Any)`). -/
def Any_annot : PyAnnot := ⟨some "Any", "typing.Any"⟩

/-- The `type(None)` (`NoneType`) sentinel used as the default for an
absent return annotation (`type_hints.get('return', type(None))`). -/
def NoneType_annot : PyAnnot := ⟨some "NoneType", "<class 'NoneType'>"⟩

/-- The `int` builtin type as an annotation value. -/
def int_annot : PyAnnot := ⟨some "int", "<class 'int'>"⟩

/-- The `str` builtin type as an annotation value. -/
def str_annot : PyAnnot := ⟨some "str", "<class 'str'>"⟩

/-- The `bool` builtin type as an annotation value. -/
def bool_annot : PyAnnot := ⟨some "bool", "<class 'bool'>"⟩

/-- A generic alias such as `typing.Optional[int]`: no `__name__`
attribute, only a string representation. -/
def optional_int_annot : PyAnnot := ⟨none, "typing.Optional[int]"⟩

/-- One parameter as reported by `inspect.signature(func).parameters`:
its name and whether a default value was supplied
(`param.default != inspect.Parameter.empty`). -/
structure PyParam where
  name : String
  hasDefault : Bool
  deriving DecidableEq, Repr

/-- A Python callable as seen by `register_function`: its `__name__`, its
ordered parameter list, the resolved `get_type_hints` mapping for
parameters, the resolved return annotation (the hints dict's `'return'`
key), and its `__doc__`. -/
structure PyFunc where
  fname : String
  params : List PyParam
  hints : List (String × PyAnnot)
  returnHint : Option PyAnnot
  doc : Option String
  deriving DecidableEq, Repr

/-- Lookup in a Python dict modelled as an association list (`d.get(k)` /
`d[k]` when present). -/
def dictLookup {α β : Type} [DecidableEq α] : List (α × β) → α → Option β
  | [], _ => none
  | (k', v') :: rest, k => if k' = k then some v' else dictLookup rest k

/-- Assignment `d[k] = v` on a Python dict: replaces the value in place
when the key is present, appends a new entry otherwise. -/
def dictInsert {α β : Type} [DecidableEq α] : List (α × β) → α → β → List (α × β)
  | [], k, v => [(k, v)]
  | (k', v') :: rest, k, v =>
      if k' = k then (k, v) :: rest else (k', v') :: dictInsert rest k v

/-- `FunctionSignature` (task_components.py lines 11-18): the recorded
metadata of a registered function. The `types` dict keeps insertion
order, like a Python dict. -/
structure FunctionSignature where
  name : String
  args : List String
  types : List (String × String)
  return_type : String
  doc : Option String
  required_args : List String
  optional_args : List String
  deriving DecidableEq, Repr

/-- `type_to_string` (task_components.py lines 22-27): the `__name__`
attribute when the value has one, otherwise `str(type_hint)`. -/
def type_to_string (type_hint : PyAnnot) : String :=
  match type_hint.name_attr with
  | some n => n
  | none => type_hint.str_repr

/-- The body of `register_function` (task_components.py lines 32-59): the
loop over `sig.parameters` builds `args`, `types`, `required_args` and
`optional_args`, then the return type and docstring are recorded. -/
def build_signature (func : PyFunc) : FunctionSignature :=
  { name := func.fname
    args := func.params.map PyParam.name
    types := func.params.map
      (fun p => (p.name, type_to_string ((dictLookup func.hints p.name).getD Any_annot)))
    return_type := type_to_string (func.returnHint.getD NoneType_annot)
    doc := func.doc
    required_args := (func.params.filter (fun p => !p.hasDefault)).map PyParam.name
    optional_args := (func.params.filter (fun p => p.hasDefault)).map PyParam.name }

/-- `register_function` (task_components.py lines 30-63): computes the
signature, stores it in the registry under `func.__name__`, and returns
the original callable. The mutable module-level registry is passed
explicitly. -/
def register_function (func : PyFunc) (registry : List (String × FunctionSignature)) :
    List (String × FunctionSignature) × PyFunc :=
  (dictInsert registry func.fname (build_signature func), func)

/-- `upload_to_notion` (task_components.py lines 65-67): placeholder with
no parameters, no annotations and no docstring. -/
def upload_to_notion : PyFunc := ⟨"upload_to_notion", [], [], none, none⟩

/-- `send_email` (task_components.py lines 70-72). -/
def send_email : PyFunc := ⟨"send_email", [], [], none, none⟩

/-- `scrape` (task_components.py lines 74-76). -/
def scrape : PyFunc := ⟨"scrape", [], [], none, none⟩

/-- `planning` (task_components.py lines 78-80). -/
def planning : PyFunc := ⟨"planning", [], [], none, none⟩

/-- `analyse` (task_components.py lines 82-84). -/
def analyse : PyFunc := ⟨"analyse", [], [], none, none⟩

/-- `function_registry` (task_components.py line 20) after module
initialization: the five placeholder functions registered in declaration
order by their `@register_function` decorators. -/
def function_registry : List (String × FunctionSignature) :=
  (register_function analyse
    (register_function planning
      (register_function scrape
        (register_function send_email
          (register_function upload_to_notion []).1).1).1).1).1

/-- Modelled from the spec: `SupportedTask` lives in
`aoagent/domain/models.py`, which is absent from the sources; the spec
describes it as a closed enumeration of task identifiers (research,
planning), and the execution graph keys exactly these two members. -/
inductive SupportedTask where
  | RESEARCH
  | PLANNING
  deriving DecidableEq, Repr

/-- A value passed to `get_task_graph` at runtime: Python does not
enforce the `SupportedTask` annotation, so besides the enumeration
members any other value (modelled by its string form) can be passed. -/
inductive TaskId where
  | task (t : SupportedTask)
  | other (s : String)
  deriving DecidableEq, Repr

/-- Display form of a task identifier, used in the `KeyError` payload. -/
def TaskId.str : TaskId → String
  | .task .RESEARCH => "SupportedTask.RESEARCH"
  | .task .PLANNING => "SupportedTask.PLANNING"
  | .other s => s

/-- `AOTASK_EXECUTION_GRAPH` (task_components.py lines 88-98): the static
mapping from supported tasks to ordered lists of function references. -/
def AOTASK_EXECUTION_GRAPH : List (TaskId × List PyFunc) :=
  [(.task .RESEARCH, [analyse, scrape, upload_to_notion]),
   (.task .PLANNING, [planning, send_email])]

/-- The process-wide state of the core module: the registry and the graph
mapping, both populated at module load. -/
structure CoreState where
  registry : List (String × FunctionSignature)
  graph : List (TaskId × List PyFunc)
  deriving DecidableEq, Repr

/-- The core state right after module initialization. -/
def initState : CoreState := ⟨function_registry, AOTASK_EXECUTION_GRAPH⟩

/-- `get_task_graph` (task_components.py lines 101-102): a single dict
subscript; raises `KeyError` when the task has no entry. The state is
threaded through to express that the function does not modify it. -/
def get_task_graph (st : CoreState) (supported_task : TaskId) :
    Except PyError (List PyFunc) × CoreState :=
  match dictLookup st.graph supported_task with
  | some components => (.ok components, st)
  | none => (.error (.KeyError supported_task.str), st)

/-- Substring containment, Python's `needle in hay` on strings (true for
the empty needle). -/
def strContains (hay needle : String) : Bool :=
  (List.range (hay.data.length + 1)).any
    (fun i => needle.data.isPrefixOf (hay.data.drop i))

/-- `_check_model_is_incorporated` (agent.py lines 14-19): subscripting
`incorporated_model_index[provider]` raises `KeyError` when the provider
is absent; otherwise the loop tests `model in models` (Python substring
containment) against each listed model string. The model index loaded
from `available_models.yml` is passed explicitly. -/
def _check_model_is_incorporated (index : List (String × List String))
    (model provider : String) : Except PyError Bool :=
  match dictLookup index provider with
  | none => .error (.KeyError provider)
  | some modelStrings => .ok (modelStrings.any (fun ms => strContains ms model))

/-- The attributes an `AOAgent` instance may have assigned during
`__init__`; `none` models an attribute never assigned (reading it raises
`AttributeError`). -/
structure AOAgentState where
  model : Option String
  instructions : Option String
  deriving DecidableEq, Repr

/-- `AOAgent.__init__` (agent.py lines 23-34): checks availability,
conditionally assigns `self.model` and `self.instructions`, then reads
`self.model` for the superclass call. `instructions` is truthy when it is
a non-empty string. -/
def AOAgent_init (index : List (String × List String)) (model provider : String)
    (instructions : Option String) : Except PyError AOAgentState :=
  match _check_model_is_incorporated index model provider with
  | .error e => .error e
  | .ok is_available =>
    let st : AOAgentState := ⟨none, none⟩
    let st := if is_available then { st with model := some (provider ++ ":" ++ model) } else st
    let st := match instructions with
      | some i => if i = "" then st else { st with instructions := some i }
      | none => st
    match st.model with
    | none => .error (.AttributeError "model")
    | some _ => .ok st

/-! ### Helper lemmas on the dict model -/

theorem dictLookup_dictInsert_self {α β : Type} [DecidableEq α]
    (d : List (α × β)) (k : α) (v : β) :
    dictLookup (dictInsert d k v) k = some v := by
  induction d with
  | nil => simp [dictInsert, dictLookup]
  | cons hd tl ih =>
    obtain ⟨k', v'⟩ := hd
    by_cases hk : k' = k
    · subst hk
      simp [dictInsert, dictLookup]
    · simp [dictInsert, dictLookup, hk, ih]

theorem dictLookup_dictInsert_ne {α β : Type} [DecidableEq α]
    (d : List (α × β)) (k k' : α) (v : β) (hne : k' ≠ k) :
    dictLookup (dictInsert d k v) k' = dictLookup d k' := by
  induction d with
  | nil => simp [dictInsert, dictLookup, hne.symm]
  | cons hd tl ih =>
    obtain ⟨k₀, v₀⟩ := hd
    by_cases hk : k₀ = k
    · subst hk
      simp [dictInsert, dictLookup, hne.symm]
    · simp [dictInsert, dictLookup, hk, ih]

/-! ### Claim theorems -/

/-- C2: for every member of the `SupportedTask` enumeration,
`get_task_graph` returns a non-empty ordered sequence, and every function
in that sequence has its name present as a key of `function_registry`. -/
theorem get_task_graph_supported_nonempty_registered (t : SupportedTask) :
    ∃ l, (get_task_graph initState (.task t)).1 = .ok l ∧ l ≠ [] ∧
      ∀ f ∈ l, (dictLookup function_registry f.fname).isSome = true := by
  cases t with
  | RESEARCH => exact ⟨[analyse, scrape, upload_to_notion], rfl, by decide, by decide⟩
  | PLANNING => exact ⟨[planning, send_email], rfl, by decide, by decide⟩

/-- C3: for every task identifier with no entry in the graph mapping,
`get_task_graph` fails with a `KeyError` (never a default or empty list),
and the state — registry and graph — is unchanged. -/
theorem get_task_graph_missing_key (st : CoreState) (t : TaskId)
    (h : dictLookup st.graph t = none) :
    get_task_graph st t = (.error (.KeyError t.str), st) := by
  simp [get_task_graph, h]

/-- Witness for C3: looking up a task outside the enumeration in the
initial state raises `KeyError` and leaves the state unchanged. -/
theorem get_task_graph_missing_key_witness :
    dictLookup initState.graph (TaskId.other "cooking") = none ∧
    get_task_graph initState (TaskId.other "cooking") =
      (.error (.KeyError "cooking"), initState) :=
  ⟨rfl, get_task_graph_missing_key initState (TaskId.other "cooking") rfl⟩

/-- The scenario function `f(a: int, b: str = "x") -> bool` with docstring
"does a thing". -/
def f_scenario : PyFunc :=
  ⟨"f", [⟨"a", false⟩, ⟨"b", true⟩], [("a", int_annot), ("b", str_annot)],
   some bool_annot, some "does a thing"⟩

/-- C4: registering `f(a: int, b: str = "x") -> bool` with docstring
"does a thing" stores exactly the expected metadata and returns the
original callable unchanged. -/
theorem register_function_scenario :
    (register_function f_scenario []).2 = f_scenario ∧
    dictLookup (register_function f_scenario []).1 "f" = some
      { name := "f", args := ["a", "b"], types := [("a", "int"), ("b", "str")],
        return_type := "bool", doc := some "does a thing",
        required_args := ["a"], optional_args := ["b"] } :=
  ⟨rfl, rfl⟩

/-- C5: `get_task_graph(RESEARCH)` returns exactly
`[analyse, scrape, upload_to_notion]`, in that order. -/
theorem get_task_graph_research :
    get_task_graph initState (.task .RESEARCH) =
      (.ok [analyse, scrape, upload_to_notion], initState) :=
  rfl

/-- C7: `type_to_string` is total and returns the `__name__` attribute
when the annotation value has one, and its `str(...)` conversion
otherwise. -/
theorem type_to_string_cases (a : PyAnnot) :
    (∀ n, a.name_attr = some n → type_to_string a = n) ∧
    (a.name_attr = none → type_to_string a = a.str_repr) := by
  constructor
  · intro n h
    simp [type_to_string, h]
  · intro h
    simp [type_to_string, h]

/-- Witness for C7: a builtin type resolves to its short name, a generic
alias without `__name__` to its string form. -/
theorem type_to_string_cases_witness :
    type_to_string int_annot = "int" ∧
    type_to_string optional_int_annot = "typing.Optional[int]" :=
  ⟨(type_to_string_cases int_annot).1 "int" rfl,
   (type_to_string_cases optional_int_annot).2 rfl⟩

/-- C9: after module initialization, `function_registry` holds exactly
five entries, under the five placeholder names in declaration order, each
with empty `args`, `required_args`, `optional_args` and `types`, and no
docstring. -/
theorem function_registry_initial :
    function_registry.map Prod.fst =
      ["upload_to_notion", "send_email", "scrape", "planning", "analyse"] ∧
    function_registry.length = 5 ∧
    ∀ pr ∈ function_registry, pr.2.args = [] ∧ pr.2.required_args = [] ∧
      pr.2.optional_args = [] ∧ pr.2.types = [] ∧ pr.2.doc = none := by
  refine ⟨rfl, rfl, ?_⟩
  decide

/-- C6: a function registered with no type annotations gets the "any
type" label for every parameter and the "no value" label as return type
in its stored registry entry. -/
theorem register_unannotated (f : PyFunc) (reg : List (String × FunctionSignature))
    (hh : f.hints = []) (hr : f.returnHint = none) :
    ∃ sig, dictLookup (register_function f reg).1 f.fname = some sig ∧
      (∀ pr ∈ sig.types, pr.2 = type_to_string Any_annot) ∧
      sig.return_type = type_to_string NoneType_annot := by
  refine ⟨build_signature f, dictLookup_dictInsert_self .., ?_, ?_⟩
  · intro pr hpr
    simp only [build_signature, List.mem_map] at hpr
    obtain ⟨p, _, rfl⟩ := hpr
    simp [hh, dictLookup]
  · simp [build_signature, hr]

/-- A concrete annotation-free function, used to witness C6. -/
def bare_fn : PyFunc := ⟨"bare", [⟨"x", false⟩, ⟨"y", true⟩], [], none, none⟩

/-- Witness for C6: registering `bare(x, y=...)`, which carries no
annotations, yields only "any type" parameter labels and the "no value"
return label. -/
theorem register_unannotated_witness :
    (bare_fn.hints = [] ∧ bare_fn.returnHint = none) ∧
    ∃ sig, dictLookup (register_function bare_fn []).1 bare_fn.fname = some sig ∧
      (∀ pr ∈ sig.types, pr.2 = type_to_string Any_annot) ∧
      sig.return_type = type_to_string NoneType_annot :=
  ⟨⟨rfl, rfl⟩, register_unannotated bare_fn [] rfl rfl⟩

/-- C8: registering two functions with the same name in sequence raises
no conflict; the registry then exposes exactly the second registration's
metadata under that name, and every other name is unchanged. -/
theorem register_same_name_last_wins (reg : List (String × FunctionSignature))
    (f g : PyFunc) (hname : f.fname = g.fname) :
    dictLookup (register_function g (register_function f reg).1).1 g.fname =
      some (build_signature g) ∧
    ∀ k, k ≠ g.fname →
      dictLookup (register_function g (register_function f reg).1).1 k =
        dictLookup reg k := by
  constructor
  · exact dictLookup_dictInsert_self ..
  · intro k hk
    have hk' : k ≠ f.fname := by rw [hname]; exact hk
    simp only [register_function]
    rw [dictLookup_dictInsert_ne _ _ _ _ hk, dictLookup_dictInsert_ne _ _ _ _ hk']

/-- First registration of the duplicated name, used to witness C8. -/
def dup_first : PyFunc := ⟨"dup", [], [], none, some "first"⟩

/-- Second registration of the duplicated name, used to witness C8. -/
def dup_second : PyFunc := ⟨"dup", [⟨"x", false⟩], [("x", int_annot)], none, some "second"⟩

/-- A pre-existing registry with an unrelated entry, used to witness C8. -/
def keep_registry : List (String × FunctionSignature) :=
  [("keep", build_signature scrape)]

/-- Witness for C8: after registering `dup_first` then `dup_second` the
entry under "dup" is the second signature, and the unrelated "keep" entry
is untouched. -/
theorem register_same_name_last_wins_witness :
    dictLookup (register_function dup_second
        (register_function dup_first keep_registry).1).1 "dup" =
      some (build_signature dup_second) ∧
    dictLookup (register_function dup_second
        (register_function dup_first keep_registry).1).1 "keep" =
      dictLookup keep_registry "keep" :=
  ⟨(register_same_name_last_wins keep_registry dup_first dup_second rfl).1,
   (register_same_name_last_wins keep_registry dup_first dup_second rfl).2 "keep" (by decide)⟩

/-- C10: when `_check_model_is_incorporated` returns `False`,
`AOAgent.__init__` raises `AttributeError` reading the never-assigned
`self.model` (no completed construction, no descriptive validation
error); when the provider is absent from the model index, it raises
`KeyError` instead. -/
theorem AOAgent_init_error_paths (index : List (String × List String))
    (model provider : String) (instr : Option String) :
    (_check_model_is_incorporated index model provider = .ok false →
      AOAgent_init index model provider instr = .error (.AttributeError "model")) ∧
    (dictLookup index provider = none →
      AOAgent_init index model provider instr = .error (.KeyError provider)) := by
  constructor
  · intro h
    unfold AOAgent_init
    rw [h]
    cases instr with
    | none => rfl
    | some i =>
      by_cases hi : i = ""
      · simp [hi]
      · simp [hi]
  · intro h
    unfold AOAgent_init _check_model_is_incorporated
    rw [h]

/-- A concrete model index with a single provider, used to witness C10. -/
def indexW : List (String × List String) := [("anthropic", ["claude-sonnet-4-0"])]

/-- Witness for C10: an unavailable model under a known provider raises
`AttributeError`; an unknown provider raises `KeyError`. -/
theorem AOAgent_init_error_paths_witness :
    (_check_model_is_incorporated indexW "gpt-4" "anthropic" = .ok false ∧
     AOAgent_init indexW "gpt-4" "anthropic" (some "Be friendly") =
       .error (.AttributeError "model")) ∧
    (dictLookup indexW "openai" = none ∧
     AOAgent_init indexW "gpt-4" "openai" none = .error (.KeyError "openai")) :=
  ⟨⟨rfl, (AOAgent_init_error_paths indexW "gpt-4" "anthropic" (some "Be friendly")).1 rfl⟩,
   ⟨rfl, (AOAgent_init_error_paths indexW "gpt-4" "openai" none).2 rfl⟩⟩

/-- The legal Python callable `def shadow(bool: int) -> bool`: its
return-type label coincides with one of its parameter names. -/
def shadow_fn : PyFunc :=
  ⟨"shadow", [⟨"bool", false⟩], [("bool", int_annot)], some bool_annot, none⟩

/-- Counterexample to C1 as stated: for the registered callable
`shadow(bool: int) -> bool`, the stored `return_type` ("bool") IS a key
of `types`, refuting the clause "return_type is not a key of types". -/
theorem registered_invariant_cex :
    dictLookup (register_function shadow_fn []).1 "shadow" =
      some (build_signature shadow_fn) ∧
    (build_signature shadow_fn).return_type ∈
      (build_signature shadow_fn).types.map Prod.fst :=
  ⟨rfl, by decide⟩

/-- C1 (amended): for every registered callable (with distinct parameter
names, as Python guarantees), the stored signature has `args` as the
order-preserving disjoint union of `required_args` and `optional_args`, a
parameter falls in `required_args` exactly when it has no default, and
the keys of `types` are exactly `args` (so every parameter name is a key
and the lengths agree); the return type lives only in the separate
`return_type` field, never as an entry of `types`. -/
theorem registered_invariant (f : PyFunc) (reg : List (String × FunctionSignature))
    (hnodup : (f.params.map PyParam.name).Nodup) :
    dictLookup (register_function f reg).1 f.fname = some (build_signature f) ∧
    (build_signature f).required_args.Sublist (build_signature f).args ∧
    (build_signature f).optional_args.Sublist (build_signature f).args ∧
    (build_signature f).args.Perm
      ((build_signature f).required_args ++ (build_signature f).optional_args) ∧
    (∀ a ∈ (build_signature f).required_args, a ∉ (build_signature f).optional_args) ∧
    (∀ p ∈ f.params, (p.name ∈ (build_signature f).required_args ↔ p.hasDefault = false)) ∧
    (build_signature f).types.map Prod.fst = (build_signature f).args ∧
    (build_signature f).types.length = (build_signature f).args.length := by
  have inj := List.inj_on_of_nodup_map hnodup
  refine ⟨dictLookup_dictInsert_self .., ?_, ?_, ?_, ?_, ?_, ?_, ?_⟩
  · exact (List.filter_sublist f.params).map PyParam.name
  · exact (List.filter_sublist f.params).map PyParam.name
  · have hperm : (f.params.filter (fun p => !p.hasDefault) ++
        f.params.filter (fun p => p.hasDefault)).Perm f.params := by
      have h := List.filter_append_perm (fun p => !p.hasDefault) f.params
      simpa [Bool.not_not] using h
    simpa only [build_signature, List.map_append] using (hperm.map PyParam.name).symm
  · intro a ha hb
    simp only [build_signature, List.mem_map] at ha hb
    obtain ⟨p, hp, rfl⟩ := ha
    obtain ⟨q, hq, hqname⟩ := hb
    rw [List.mem_filter] at hp hq
    have hqp : q = p := inj hq.1 hp.1 hqname
    rw [hqp] at hq
    simp [hq.2] at hp
  · intro p hp
    constructor
    · intro hmem
      simp only [build_signature, List.mem_map] at hmem
      obtain ⟨q, hq, hqname⟩ := hmem
      rw [List.mem_filter] at hq
      have hqp : q = p := inj hq.1 hp hqname
      rw [hqp] at hq
      simpa using hq.2
    · intro hdef
      simp only [build_signature, List.mem_map]
      exact ⟨p, List.mem_filter.mpr ⟨hp, by rw [hdef]; rfl⟩, rfl⟩
  · simp [build_signature, List.map_map, Function.comp]
  · simp [build_signature]

/-- A concrete mixed function `mixed(a: int, b=..., c)` used to witness
the amended C1 invariant. -/
def mixed_fn : PyFunc :=
  ⟨"mixed", [⟨"a", false⟩, ⟨"b", true⟩, ⟨"c", false⟩], [("a", int_annot)],
   some bool_annot, some "mixed doc"⟩

/-- Witness for the amended C1: the invariant holds for the concrete
function `mixed`. -/
theorem registered_invariant_witness :
    (mixed_fn.params.map PyParam.name).Nodup ∧
    (build_signature mixed_fn).args.Perm
      ((build_signature mixed_fn).required_args ++ (build_signature mixed_fn).optional_args) :=
  ⟨by decide, (registered_invariant mixed_fn [] (by decide)).2.2.2.1⟩
